import Mathlib

/-!
Shallow embedding of the queued file-transfer engine in
`src/FileTransferAssistant/src/transfer/manager.py`.

Modelling conventions:
* File contents are lists of bytes (`List Nat`); the filesystem seen by a
  single-file transfer is an association list `path ↦ contents`.
* The SHA-256 digest is abstracted as a parameter `digest : List Nat → Nat`:
  the code only ever compares digests of two files for equality, so no
  structural property of the hash is needed.
* `threading.Event` cancellation is modelled by `stopAt : Option Nat`: the
  stop event is observed as set from the `n`-th cooperative check onward
  (checks are numbered in the order the code performs them), `none` meaning
  the event is never set.  A `threading.Event` is monotone (once set it stays
  set), which this encoding captures.
* Timestamps carry no information used by any claim; `datetime.now()` is
  modelled as the constant `0` so that `start_time`/`end_time` keep their
  `Option` shape from the source.
* Each copier also returns a `trace : List Status` recording every assignment
  to `item.status` in order, instrumenting the state machine of the source
  without changing any returned value.
-/

/-- The `status` strings of `TransferItem`
(`pending, transferring, completed, failed, skipped`). -/
inductive Status where
  | pending
  | transferring
  | completed
  | failed
  | skipped
deriving Repr, DecidableEq

/-- A `status` is terminal when it is `completed`, `failed` or `skipped`. -/
def Status.isTerminal : Status → Bool
  | .completed => true
  | .failed => true
  | .skipped => true
  | _ => false

/-- `TransferItem.__init__`: one source→destination unit of work. -/
structure TransferItem where
  source_path : String
  destination_path : String
  is_dir : Bool
  status : Status
  bytes_transferred : Nat
  total_bytes : Nat
  error : Option String
  start_time : Option Nat
  end_time : Option Nat
deriving Repr, DecidableEq

/-- `TransferItem(source_path, destination_path, is_dir)`: fresh item,
`status = 'pending'`, zero byte counters, no error, no timestamps. -/
def mkTransferItem (s d : String) (is_dir : Bool) : TransferItem :=
  { source_path := s
    destination_path := d
    is_dir := is_dir
    status := Status.pending
    bytes_transferred := 0
    total_bytes := 0
    error := none
    start_time := none
    end_time := none }

/-- `TransferItem.start_transfer`. -/
def TransferItem.start_transfer (t : TransferItem) : TransferItem :=
  { t with status := Status.transferring, start_time := some 0 }

/-- `TransferItem.complete(bytes_transferred=None)`: `none` models the
default `None` argument, which leaves `bytes_transferred` untouched. -/
def TransferItem.complete (t : TransferItem) (bytes : Option Nat) : TransferItem :=
  { t with
    status := Status.completed
    end_time := some 0
    bytes_transferred := bytes.getD t.bytes_transferred }

/-- `TransferItem.fail(error)`. -/
def TransferItem.fail (t : TransferItem) (e : String) : TransferItem :=
  { t with status := Status.failed, error := some e, end_time := some 0 }

/-- `TransferItem.skip(reason=None)`: the error field is only overwritten
when a reason is given. -/
def TransferItem.skip (t : TransferItem) (reason : Option String) : TransferItem :=
  { t with
    status := Status.skipped
    error := match reason with
      | some r => some r
      | none => t.error
    end_time := some 0 }

/-- Whether the shared stop event is observed as set at the `i`-th
cooperative cancellation check (0-based, in code order). -/
def stopIsSet (stopAt : Option Nat) (i : Nat) : Bool :=
  match stopAt with
  | none => false
  | some n => Nat.ble n i

/-- The flat filesystem a single-file transfer runs against. -/
abbrev FileSystem := List (String × List Nat)

/-- `os.path.exists` / `Path.exists` on the flat filesystem. -/
def lookupFile (fs : FileSystem) (p : String) : Option (List Nat) :=
  (fs.find? (fun e => decide (e.1 = p))).map (fun e => e.2)

def existsFile (fs : FileSystem) (p : String) : Bool :=
  (lookupFile fs p).isSome

/-- `os.remove`. -/
def removeFile (fs : FileSystem) (p : String) : FileSystem :=
  fs.filter (fun e => decide (e.1 ≠ p))

/-- Writing the destination file: the complete contents that ended on disk. -/
def writeFile (fs : FileSystem) (p : String) (c : List Nat) : FileSystem :=
  removeFile fs p ++ [(p, c)]

/-- `fsrc.read(buffer_size)` driven to end-of-file: the source contents cut
into chunks of at most `bufSize` bytes (each read is nonempty until EOF).
The source always calls this with `buffer_size = 1024*1024 > 0`. -/
def chunkifyAux (bufSize : Nat) : Nat → List Nat → List (List Nat)
  | _, [] => []
  | 0, _ :: _ => []
  | fuel + 1, x :: xs =>
      (x :: xs.take (bufSize - 1)) :: chunkifyAux bufSize fuel (xs.drop (bufSize - 1))

def chunkify (bufSize : Nat) (l : List Nat) : List (List Nat) :=
  chunkifyAux bufSize l.length l

/-- Result of the chunked copy loop inside `copy_with_progress`:
`written` is what reached the destination file, `prog` the successive
`transfer.bytes_transferred` values published on the `progress` channel,
`finalBytes` the final `transfer.bytes_transferred`, `err` the message of
the exception raised (only `InterruptedError("Transfer cancelled")` can
arise inside the loop). -/
structure CopyLoopResult where
  written : List Nat
  prog : List Nat
  finalBytes : Nat
  err : Option String
deriving Repr, DecidableEq

/-- The `while True` loop of `copy_with_progress`: per iteration, check the
stop event (check number `i`), read a chunk (empty read breaks), write it,
add its length to `bytes_transferred`, publish `progress`. -/
def copyLoop (stopAt : Option Nat) : List (List Nat) → Nat → Nat → List Nat → List Nat →
    CopyLoopResult
  | chunks, i, bt, written, prog =>
    if stopIsSet stopAt i then
      { written := written, prog := prog, finalBytes := bt, err := some "Transfer cancelled" }
    else
      match chunks with
      | [] => { written := written, prog := prog, finalBytes := bt, err := none }
      | c :: rest =>
          copyLoop stopAt rest (i + 1) (bt + c.length) (written ++ c) (prog ++ [bt + c.length])

/-- Result of `TransferManager._transfer_file`: the mutated item, the
filesystem after the call (destination written on success, cleaned up on
failure), the published `progress` values, the trace of status
assignments, and the exception re-raised to the worker (if any). -/
structure FileCopyResult where
  item : TransferItem
  fs : FileSystem
  prog : List Nat
  trace : List Status
  err : Option String
deriving Repr, DecidableEq

/-- `TransferManager._transfer_file`.  Steps, in source order: ensure the
destination parent exists (a no-op on the flat filesystem); skip if the
destination exists; `start_transfer`; open source (raising if absent — the
destination has not been created at that point, so the cleanup in the
`except` block finds nothing); run the chunked copy; on any exception
remove the partially written destination (best effort modelled as
succeeding) and re-raise; verify sizes, verify checksums when
`verify_checksum` is configured; `complete(os.path.getsize(source))`. -/
def transfer_file (verify_checksum : Bool) (digest : List Nat → Nat)
    (stopAt : Option Nat) (fs : FileSystem) (t : TransferItem) : FileCopyResult :=
  if existsFile fs t.destination_path then
    { item := t.skip (some "File already exists"), fs := fs, prog := [],
      trace := [Status.skipped], err := none }
  else
    let t1 := t.start_transfer
    match lookupFile fs t.source_path with
    | none =>
        { item := t1, fs := fs, prog := [], trace := [Status.transferring],
          err := some "No such file or directory" }
    | some src =>
        let r := copyLoop stopAt (chunkify (1024 * 1024) src) 0 t1.bytes_transferred [] []
        let t2 := { t1 with bytes_transferred := r.finalBytes }
        match r.err with
        | some e =>
            { item := t2, fs := fs, prog := r.prog, trace := [Status.transferring],
              err := some e }
        | none =>
            if r.written.length ≠ src.length then
              { item := t2, fs := fs, prog := r.prog, trace := [Status.transferring],
                err := some "File size mismatch after copy" }
            else if verify_checksum ∧ digest src ≠ digest r.written then
              { item := t2, fs := fs, prog := r.prog, trace := [Status.transferring],
                err := some "Checksum verification failed" }
            else
              { item := t2.complete (some src.length)
                fs := writeFile fs t.destination_path r.written
                prog := r.prog
                trace := [Status.transferring, Status.completed]
                err := none }

/-- One file seen by `os.walk` inside `TransferManager._transfer_directory`:
its name, its size (`src_file.stat().st_size`), and whether `shutil.copy2`
raises for it (the "unreadable file" of the fault-isolation scenario). -/
structure DirFile where
  name : String
  size : Nat
  unreadable : Bool
deriving Repr, DecidableEq

/-- The contents of the destination root directory: copied file name ↦ size. -/
abbrev DestDir := List (String × Nat)

/-- `dst_file.exists()` inside the walk. -/
def fileExistsIn (dest : DestDir) (n : String) : Bool :=
  dest.any (fun p => decide (p.1 = n))

/-- Result of `TransferManager._transfer_directory`: mutated item, the
destination root after the call (`none` = the root directory does not
exist), published `progress` values, status-assignment trace, and the
exception re-raised to the worker (if any). -/
structure DirCopyResult where
  item : TransferItem
  destRoot : Option DestDir
  prog : List Nat
  trace : List Status
  err : Option String
deriving Repr, DecidableEq

/-- The `for file in files` loop of `_transfer_directory` over one directory
level: per file, check the stop event (check number `i`), skip the file if it
already exists at the destination, attempt `shutil.copy2` — a per-file
failure is logged and the walk continues — and on success add the file to the
destination, add its size to `bytes_transferred` and publish `progress`.
Returns (destination contents, bytes_transferred, progress values, raised
exception). -/
def walkFiles (stopAt : Option Nat) : List DirFile → Nat → Nat → DestDir → List Nat →
    DestDir × Nat × List Nat × Option String
  | [], _, bt, dest, prog => (dest, bt, prog, none)
  | f :: rest, i, bt, dest, prog =>
    if stopIsSet stopAt i then (dest, bt, prog, some "Transfer cancelled")
    else if fileExistsIn dest f.name then walkFiles stopAt rest (i + 1) bt dest prog
    else if f.unreadable then walkFiles stopAt rest (i + 1) bt dest prog
    else
      walkFiles stopAt rest (i + 1) (bt + f.size) (dest ++ [(f.name, f.size)])
        (prog ++ [bt + f.size])

/-- `TransferManager._transfer_directory` for a single-level source tree.
`rootMkdirFails` models `dest.mkdir(parents=True, exist_ok=True)` raising
`OSError` (only possible when the root does not already exist, because of
`exist_ok=True`); `preexisting` is `some contents` when the destination root
directory already exists.  In source order: create the destination root
(failure is re-raised as `IOError` before `start_transfer`, so the item is
untouched and nothing is written); `start_transfer`; check the stop event
once for the directory level (check 0) and once per file (checks 1, 2, …);
copy the files, tolerating per-file failures; `complete()`.  On any raised
exception the whole destination root is removed (`shutil.rmtree(dest)`,
best effort modelled as succeeding) and the exception re-raised. -/
def transfer_directory (stopAt : Option Nat) (rootMkdirFails : Bool)
    (preexisting : Option DestDir) (files : List DirFile) (t : TransferItem) : DirCopyResult :=
  if preexisting.isNone ∧ rootMkdirFails then
    { item := t, destRoot := none, prog := [], trace := [],
      err := some "Failed to create directory" }
  else
    let dest0 := preexisting.getD []
    let t1 := t.start_transfer
    if stopIsSet stopAt 0 then
      { item := t1, destRoot := none, prog := [], trace := [Status.transferring],
        err := some "Transfer cancelled" }
    else
      let r := walkFiles stopAt files 1 t1.bytes_transferred dest0 []
      let t2 := { t1 with bytes_transferred := r.2.1 }
      match r.2.2.2 with
      | some e =>
          { item := t2, destRoot := none, prog := r.2.2.1,
            trace := [Status.transferring], err := some e }
      | none =>
          { item := t2.complete none, destRoot := some r.1, prog := r.2.2.1,
            trace := [Status.transferring, Status.completed], err := none }

/-- The environment one worker iteration runs against: the configuration,
the stop event, and the filesystem state each copier sees. -/
structure CopyEnv where
  verify_checksum : Bool
  digest : List Nat → Nat
  stopAt : Option Nat
  fs : FileSystem
  rootMkdirFails : Bool
  preexisting : Option DestDir
  files : List DirFile

/-- The dispatch in `_process_queue`: `_transfer_directory` when
`transfer.is_dir` else `_transfer_file`.  Returns the mutated item, the
published `progress` values, the status trace, and the raised exception. -/
def runCopier (env : CopyEnv) (t : TransferItem) :
    TransferItem × List Nat × List Status × Option String :=
  if t.is_dir then
    let r := transfer_directory env.stopAt env.rootMkdirFails env.preexisting env.files t
    (r.item, r.prog, r.trace, r.err)
  else
    let r := transfer_file env.verify_checksum env.digest env.stopAt env.fs t
    (r.item, r.prog, r.trace, r.err)

/-- The events published on the manager's callback channels. -/
inductive Event where
  | start (tid : Nat)
  | progress (tid : Nat) (bytes : Nat)
  | complete (tid : Nat)
  | error (tid : Nat) (msg : String)
deriving Repr, DecidableEq

/-- The four collections owned by `TransferManager`: the pending FIFO
(`self.queue`), the in-flight map (`self.active_transfers`, keyed by id),
and the two terminal lists. -/
structure WorkerState where
  queue : List (Nat × TransferItem)
  active_transfers : List (Nat × TransferItem)
  completed_transfers : List TransferItem
  failed_transfers : List TransferItem
deriving Repr, DecidableEq

/-- `TransferManager.__init__`: all four collections empty. -/
def initialState : WorkerState :=
  { queue := [], active_transfers := [], completed_transfers := [], failed_transfers := [] }

/-- `TransferManager.add_transfer`: build a fresh item, put it on the queue
AND into `active_transfers` under the same id (`str(id(transfer))`,
modelled as a caller-supplied fresh `tid`). -/
def add_transfer (st : WorkerState) (tid : Nat) (s d : String) (is_dir : Bool) : WorkerState :=
  let t := mkTransferItem s d is_dir
  { st with
    queue := st.queue ++ [(tid, t)]
    active_transfers := st.active_transfers ++ [(tid, t)] }

/-- `self.active_transfers.pop(transfer_id, None)`. -/
def eraseId (l : List (Nat × TransferItem)) (tid : Nat) : List (Nat × TransferItem) :=
  l.filter (fun e => decide (e.1 ≠ tid))

/-- One iteration of the `while` body of `TransferManager._process_queue`:
dequeue an item, publish `start`, dispatch to the copier (whose `_notify`
calls contribute the `progress` events); when the copier returns, move a
`completed`/`failed` item to its terminal list and publish `complete`; when
it raises, `fail` the item with the message, append it to the failed list
and publish `error`; finally remove the id from `active_transfers`.
Returns the new state, the events published this iteration, and the full
status-assignment trace for the processed item. -/
def process_one (env : CopyEnv) (st : WorkerState) : WorkerState × List Event × List Status :=
  match st.queue with
  | [] => (st, [], [])
  | (tid, t) :: rest =>
    let r := runCopier env t
    let t' := r.1
    let evs0 := Event.start tid :: r.2.1.map (fun b => Event.progress tid b)
    match r.2.2.2 with
    | none =>
        let comp := if t'.status = Status.completed
          then st.completed_transfers ++ [t'] else st.completed_transfers
        let fld := if t'.status = Status.failed
          then st.failed_transfers ++ [t'] else st.failed_transfers
        ({ queue := rest, active_transfers := eraseId st.active_transfers tid,
           completed_transfers := comp, failed_transfers := fld },
         evs0 ++ [Event.complete tid], r.2.2.1)
    | some e =>
        let t2 := t'.fail e
        ({ queue := rest, active_transfers := eraseId st.active_transfers tid,
           completed_transfers := st.completed_transfers,
           failed_transfers := st.failed_transfers ++ [t2] },
         evs0 ++ [Event.error tid e], r.2.2.1 ++ [Status.failed])

/-- The counters of `TransferManager.get_overall_progress` (the float
percentage field carries no information the claims use and is omitted). -/
structure OverallProgress where
  total : Nat
  completed : Nat
  failed : Nat
  active : Nat
  queued : Nat
deriving Repr, DecidableEq

/-- `TransferManager.get_overall_progress`:
`total = qsize + len(active) + len(completed) + len(failed)`. -/
def get_overall_progress (st : WorkerState) : OverallProgress :=
  { total := st.queue.length + st.active_transfers.length +
      st.completed_transfers.length + st.failed_transfers.length
    completed := st.completed_transfers.length
    failed := st.failed_transfers.length
    active := st.active_transfers.length
    queued := st.queue.length }

/-- The `progress` field of the `get_transfer_status` snapshot:
`transfer.bytes_transferred / (transfer.total_bytes or 1)
 if transfer.total_bytes else 0`. -/
def snapshot_progress (t : TransferItem) : Rat :=
  if t.total_bytes ≠ 0 then
    (t.bytes_transferred : Rat) / ((if t.total_bytes ≠ 0 then t.total_bytes else 1 : Nat) : Rat)
  else 0

/-- The error messages of the modelled I/O failures, as distinguished from
the cancellation message `"Transfer cancelled"`. -/
def ioErrorMsgs : List String :=
  ["No such file or directory", "File size mismatch after copy",
   "Checksum verification failed", "Failed to create directory"]

/-- Total size of the files of a (single-level) source directory, the
"source size" of the spec's progress property. -/
def totalSize (files : List DirFile) : Nat :=
  (files.map (fun f => f.size)).sum

theorem find?_filter_ne_eq_none (fs : FileSystem) (p : String) :
    (removeFile fs p).find? (fun e => decide (e.1 = p)) = none := by
  induction fs with
  | nil => rfl
  | cons a l ih =>
      by_cases h : a.1 = p
      · rw [show removeFile (a :: l) p = removeFile l p by simp [removeFile, h]]
        exact ih
      · rw [show removeFile (a :: l) p = a :: removeFile l p by
          simp [removeFile, List.filter_cons, h]]
        rw [List.find?_cons]
        simp only [h, decide_False]
        exact ih

theorem find?_append_of_none {α : Type} (q : α → Bool) (l₁ l₂ : List α)
    (h : l₁.find? q = none) : (l₁ ++ l₂).find? q = l₂.find? q := by
  induction l₁ with
  | nil => rfl
  | cons a l ih =>
      by_cases hq : q a
      · simp [List.find?_cons, hq] at h
      · rw [List.find?_cons] at h
        simp only [hq] at h
        simpa [List.find?_cons, hq] using ih h

theorem lookupFile_writeFile_self (fs : FileSystem) (p : String) (c : List Nat) :
    lookupFile (writeFile fs p c) p = some c := by
  unfold lookupFile writeFile
  rw [find?_append_of_none _ _ _ (find?_filter_ne_eq_none fs p)]
  simp [List.find?_cons]

theorem stopIsSet_none (i : Nat) : stopIsSet none i = false := rfl

/-- Invariant of the chunked copy loop: (1) either no new `progress` value
was published and `bytes_transferred` is unchanged, or the last published
value is the final `bytes_transferred`; (2) the bytes written grow exactly
with `bytes_transferred`; (3) the published values stay sorted when the
values published so far are sorted and bounded by the running counter. -/
theorem copyLoop_inv (stopAt : Option Nat) (chunks : List (List Nat)) :
    ∀ i bt written prog,
      ((copyLoop stopAt chunks i bt written prog).prog = prog ∧
        (copyLoop stopAt chunks i bt written prog).finalBytes = bt ∨
        ((copyLoop stopAt chunks i bt written prog).prog).getLast? =
          some (copyLoop stopAt chunks i bt written prog).finalBytes) ∧
      (copyLoop stopAt chunks i bt written prog).written.length + bt =
        written.length + (copyLoop stopAt chunks i bt written prog).finalBytes ∧
      (List.Chain' (· ≤ ·) prog → (∀ x ∈ prog.getLast?, x ≤ bt) →
        List.Chain' (· ≤ ·) (copyLoop stopAt chunks i bt written prog).prog) := by
  induction chunks with
  | nil =>
      intro i bt written prog
      by_cases h : stopIsSet stopAt i = true
      · rw [copyLoop, if_pos h]
        exact ⟨Or.inl ⟨rfl, rfl⟩, rfl, fun hc _ => hc⟩
      · rw [copyLoop, if_neg h]
        exact ⟨Or.inl ⟨rfl, rfl⟩, rfl, fun hc _ => hc⟩
  | cons c rest ih =>
      intro i bt written prog
      by_cases h : stopIsSet stopAt i = true
      · rw [copyLoop, if_pos h]
        exact ⟨Or.inl ⟨rfl, rfl⟩, rfl, fun hc _ => hc⟩
      · have hrec := ih (i + 1) (bt + c.length) (written ++ c) (prog ++ [bt + c.length])
        rw [copyLoop]
        simp only [h, if_false, Bool.false_eq_true]
        refine ⟨?_, ?_, ?_⟩
        · rcases hrec.1 with ⟨hp, hb⟩ | hlast
          · right
            rw [hp, hb, List.getLast?_concat]
          · right
            exact hlast
        · have := hrec.2.1
          simp only [List.length_append] at this ⊢
          omega
        · intro hchain hle
          refine hrec.2.2 ?_ ?_
          · rw [List.chain'_append]
            refine ⟨hchain, List.chain'_singleton _, ?_⟩
            intro x hx y hy
            simp only [List.head?_cons, Option.mem_def, Option.some.injEq] at hy
            subst hy
            exact le_trans (hle x hx) (Nat.le_add_right _ _)
          · intro x hx
            rw [List.getLast?_concat] at hx
            simp only [Option.mem_def, Option.some.injEq] at hx
            omega

theorem fileExistsIn_append (d1 d2 : DestDir) (n : String) :
    fileExistsIn (d1 ++ d2) n = (fileExistsIn d1 n || fileExistsIn d2 n) := by
  simp [fileExistsIn, List.any_append]

theorem fileExistsIn_singleton_self (n : String) (s : Nat) :
    fileExistsIn [(n, s)] n = true := by
  simp [fileExistsIn]

/-- With the stop event never set, the directory walk raises nothing. -/
theorem walkFiles_no_stop_no_err (files : List DirFile) :
    ∀ i bt dest prog, (walkFiles none files i bt dest prog).2.2.2 = none := by
  induction files with
  | nil => intro i bt dest prog; rfl
  | cons f rest ih =>
      intro i bt dest prog
      rw [walkFiles]
      simp only [stopIsSet_none, Bool.false_eq_true, if_false]
      by_cases h2 : fileExistsIn dest f.name = true
      · rw [if_pos h2]; exact ih _ _ _ _
      · rw [if_neg h2]
        by_cases h3 : f.unreadable = true
        · rw [if_pos h3]; exact ih _ _ _ _
        · rw [if_neg h3]; exact ih _ _ _ _

/-- Invariant of the per-file loop of the directory walk: (1) the
destination only grows, by files whose sizes account exactly for the growth
of `bytes_transferred` and sum to at most the source's total size; (2)
either nothing was published and `bytes_transferred` is unchanged, or the
last published value is the final `bytes_transferred`; (3) published values
stay sorted; (4) files present at the destination stay present; (5) when
the walk raised nothing, every readable source file ends up present at the
destination. -/
theorem walkFiles_inv (stopAt : Option Nat) (files : List DirFile) :
    ∀ i bt dest prog,
      (∃ added, (walkFiles stopAt files i bt dest prog).1 = dest ++ added ∧
        (walkFiles stopAt files i bt dest prog).2.1 = bt + (added.map (fun p => p.2)).sum ∧
        (added.map (fun p => p.2)).sum ≤ totalSize files) ∧
      ((walkFiles stopAt files i bt dest prog).2.2.1 = prog ∧
        (walkFiles stopAt files i bt dest prog).2.1 = bt ∨
        ((walkFiles stopAt files i bt dest prog).2.2.1).getLast? =
          some (walkFiles stopAt files i bt dest prog).2.1) ∧
      (List.Chain' (· ≤ ·) prog → (∀ x ∈ prog.getLast?, x ≤ bt) →
        List.Chain' (· ≤ ·) (walkFiles stopAt files i bt dest prog).2.2.1) ∧
      (∀ n, fileExistsIn dest n = true →
        fileExistsIn (walkFiles stopAt files i bt dest prog).1 n = true) ∧
      ((walkFiles stopAt files i bt dest prog).2.2.2 = none →
        ∀ f ∈ files, f.unreadable = false →
          fileExistsIn (walkFiles stopAt files i bt dest prog).1 f.name = true) := by
  induction files with
  | nil =>
      intro i bt dest prog
      refine ⟨⟨[], by simp [walkFiles], by simp [walkFiles], by simp [totalSize]⟩,
        Or.inl ⟨rfl, rfl⟩, fun hc _ => hc, fun n h => h, ?_⟩
      intro _ f hf
      exact absurd hf (List.not_mem_nil f)
  | cons f rest ih =>
      intro i bt dest prog
      rw [walkFiles]
      by_cases h1 : stopIsSet stopAt i = true
      · rw [if_pos h1]
        refine ⟨⟨[], by simp, by simp, by simp⟩, Or.inl ⟨rfl, rfl⟩, fun hc _ => hc,
          fun n h => h, ?_⟩
        intro hnone
        exact absurd hnone (by simp)
      · rw [if_neg h1]
        by_cases h2 : fileExistsIn dest f.name = true
        · rw [if_pos h2]
          have hrec := ih (i + 1) bt dest prog
          refine ⟨?_, hrec.2.1, hrec.2.2.1, hrec.2.2.2.1, ?_⟩
          · obtain ⟨added, ha, hb, hs⟩ := hrec.1
            refine ⟨added, ha, hb, ?_⟩
            simp only [totalSize, List.map_cons, List.sum_cons] at hs ⊢
            omega
          · intro hnone g hg hgr
            rcases List.mem_cons.mp hg with hg | hg
            · subst hg
              exact hrec.2.2.2.1 g.name h2
            · exact hrec.2.2.2.2 hnone g hg hgr
        · rw [if_neg h2]
          by_cases h3 : f.unreadable = true
          · rw [if_pos h3]
            have hrec := ih (i + 1) bt dest prog
            refine ⟨?_, hrec.2.1, hrec.2.2.1, hrec.2.2.2.1, ?_⟩
            · obtain ⟨added, ha, hb, hs⟩ := hrec.1
              refine ⟨added, ha, hb, ?_⟩
              simp only [totalSize, List.map_cons, List.sum_cons] at hs ⊢
              omega
            · intro hnone g hg hgr
              rcases List.mem_cons.mp hg with hg | hg
              · subst hg
                rw [h3] at hgr
                exact absurd hgr (by simp)
              · exact hrec.2.2.2.2 hnone g hg hgr
          · rw [if_neg h3]
            have hrec := ih (i + 1) (bt + f.size) (dest ++ [(f.name, f.size)])
              (prog ++ [bt + f.size])
            refine ⟨?_, ?_, ?_, ?_, ?_⟩
            · obtain ⟨added, ha, hb, hs⟩ := hrec.1
              refine ⟨(f.name, f.size) :: added, ?_, ?_, ?_⟩
              · rw [ha]
                simp
              · rw [hb]
                simp only [List.map_cons, List.sum_cons]
                omega
              · simp only [totalSize, List.map_cons, List.sum_cons] at hs ⊢
                omega
            · rcases hrec.2.1 with ⟨hp, hb⟩ | hlast
              · right
                rw [hp, hb, List.getLast?_concat]
              · right
                exact hlast
            · intro hchain hle
              refine hrec.2.2.1 ?_ ?_
              · rw [List.chain'_append]
                refine ⟨hchain, List.chain'_singleton _, ?_⟩
                intro x hx y hy
                simp only [List.head?_cons, Option.mem_def, Option.some.injEq] at hy
                subst hy
                exact le_trans (hle x hx) (Nat.le_add_right _ _)
              · intro x hx
                rw [List.getLast?_concat] at hx
                simp only [Option.mem_def, Option.some.injEq] at hx
                omega
            · intro n hn
              refine hrec.2.2.2.1 n ?_
              rw [fileExistsIn_append, hn]
              rfl
            · intro hnone g hg hgr
              rcases List.mem_cons.mp hg with hg | hg
              · subst hg
                refine hrec.2.2.2.1 g.name ?_
                rw [fileExistsIn_append, fileExistsIn_singleton_self]
                simp
              · exact hrec.2.2.2.2 hnone g hg hgr

/-- C6: when the destination path already exists when the copy begins, the
item transitions to `Skipped` (not `Failed`), the copy returns without
raising and with zero bytes transferred, and the filesystem — in particular
the destination file — is left unchanged. -/
theorem c6_existing_dest_skips (verify : Bool) (digest : List Nat → Nat)
    (stopAt : Option Nat) (fs : FileSystem) (s d : String)
    (hd : existsFile fs d = true) :
    (transfer_file verify digest stopAt fs (mkTransferItem s d false)).item.status =
        Status.skipped ∧
    (transfer_file verify digest stopAt fs (mkTransferItem s d false)).item.status ≠
        Status.failed ∧
    (transfer_file verify digest stopAt fs (mkTransferItem s d false)).item.bytes_transferred
        = 0 ∧
    (transfer_file verify digest stopAt fs (mkTransferItem s d false)).err = none ∧
    (transfer_file verify digest stopAt fs (mkTransferItem s d false)).prog = [] ∧
    (transfer_file verify digest stopAt fs (mkTransferItem s d false)).fs = fs := by
  have hd' : existsFile fs (mkTransferItem s d false).destination_path = true := hd
  rw [transfer_file, if_pos hd']
  refine ⟨rfl, by simp [TransferItem.skip], rfl, rfl, rfl, rfl⟩

/-- Witness for C6 at a concrete input: destination `"d"` already present. -/
theorem c6_witness :
    existsFile [("d", [9])] "d" = true ∧
    (transfer_file false (fun l => l.sum) none [("d", [9])]
        (mkTransferItem "s" "d" false)).item.status = Status.skipped ∧
    (transfer_file false (fun l => l.sum) none [("d", [9])]
        (mkTransferItem "s" "d" false)).fs = [("d", [9])] := by
  refine ⟨by decide, ?_, ?_⟩
  · exact (c6_existing_dest_skips false (fun l => l.sum) none [("d", [9])] "s" "d"
      (by decide)).1
  · exact (c6_existing_dest_skips false (fun l => l.sum) none [("d", [9])] "s" "d"
      (by decide)).2.2.2.2.2

@[simp] theorem skip_status (t : TransferItem) (r : Option String) :
    (t.skip r).status = Status.skipped := rfl

@[simp] theorem skip_bytes (t : TransferItem) (r : Option String) :
    (t.skip r).bytes_transferred = t.bytes_transferred := rfl

@[simp] theorem start_transfer_status (t : TransferItem) :
    t.start_transfer.status = Status.transferring := rfl

@[simp] theorem start_transfer_bytes (t : TransferItem) :
    t.start_transfer.bytes_transferred = t.bytes_transferred := rfl

@[simp] theorem complete_status (t : TransferItem) (b : Option Nat) :
    (t.complete b).status = Status.completed := rfl

@[simp] theorem complete_some_bytes (t : TransferItem) (n : Nat) :
    (t.complete (some n)).bytes_transferred = n := rfl

@[simp] theorem complete_none_bytes (t : TransferItem) :
    (t.complete none).bytes_transferred = t.bytes_transferred := rfl

@[simp] theorem fail_status (t : TransferItem) (e : String) :
    (t.fail e).status = Status.failed := rfl

@[simp] theorem fail_error (t : TransferItem) (e : String) :
    (t.fail e).error = some e := rfl

/-- Exhaustive case analysis of `_transfer_file`: it either skips (the
destination existed), raises (leaving the filesystem unchanged and the item
in `Transferring`), or completes with the copied bytes written to the
destination and both integrity checks passed. -/
theorem transfer_file_spec (v : Bool) (dg : List Nat → Nat) (stopAt : Option Nat)
    (fs : FileSystem) (t : TransferItem) :
    ((transfer_file v dg stopAt fs t).err = none ∧
      (transfer_file v dg stopAt fs t).item.status = Status.skipped ∧
      (transfer_file v dg stopAt fs t).fs = fs ∧
      (transfer_file v dg stopAt fs t).prog = [] ∧
      (transfer_file v dg stopAt fs t).item.bytes_transferred = t.bytes_transferred ∧
      (transfer_file v dg stopAt fs t).trace = [Status.skipped] ∧
      existsFile fs t.destination_path = true) ∨
    ((∃ e, (transfer_file v dg stopAt fs t).err = some e) ∧
      (transfer_file v dg stopAt fs t).item.status = Status.transferring ∧
      (transfer_file v dg stopAt fs t).fs = fs ∧
      (transfer_file v dg stopAt fs t).trace = [Status.transferring] ∧
      ((transfer_file v dg stopAt fs t).prog = [] ∨
        ∃ src, lookupFile fs t.source_path = some src ∧
          (transfer_file v dg stopAt fs t).prog =
            (copyLoop stopAt (chunkify (1024 * 1024) src) 0 t.bytes_transferred [] []).prog) ∧
      existsFile fs t.destination_path = false) ∨
    (∃ src, (transfer_file v dg stopAt fs t).err = none ∧
      lookupFile fs t.source_path = some src ∧
      existsFile fs t.destination_path = false ∧
      (transfer_file v dg stopAt fs t).item.status = Status.completed ∧
      (transfer_file v dg stopAt fs t).item.bytes_transferred = src.length ∧
      (transfer_file v dg stopAt fs t).fs = writeFile fs t.destination_path
        (copyLoop stopAt (chunkify (1024 * 1024) src) 0 t.bytes_transferred [] []).written ∧
      (transfer_file v dg stopAt fs t).prog =
        (copyLoop stopAt (chunkify (1024 * 1024) src) 0 t.bytes_transferred [] []).prog ∧
      (transfer_file v dg stopAt fs t).trace = [Status.transferring, Status.completed] ∧
      (copyLoop stopAt (chunkify (1024 * 1024) src) 0 t.bytes_transferred [] []).err = none ∧
      (copyLoop stopAt (chunkify (1024 * 1024) src) 0 t.bytes_transferred [] []).written.length
        = src.length ∧
      (v = true →
        dg src =
          dg (copyLoop stopAt (chunkify (1024 * 1024) src) 0 t.bytes_transferred [] []).written)) := by
  by_cases hd : existsFile fs t.destination_path = true
  · have hEq : transfer_file v dg stopAt fs t =
        { item := t.skip (some "File already exists"), fs := fs, prog := [],
          trace := [Status.skipped], err := none } := by
      rw [transfer_file, if_pos hd]
    rw [hEq]
    exact Or.inl ⟨rfl, rfl, rfl, rfl, rfl, rfl, hd⟩
  · have hd' := hd
    simp only [Bool.not_eq_true] at hd'
    cases hlk : lookupFile fs t.source_path with
    | none =>
        have hEq : transfer_file v dg stopAt fs t =
            { item := t.start_transfer, fs := fs, prog := [],
              trace := [Status.transferring], err := some "No such file or directory" } := by
          rw [transfer_file, if_neg hd]
          simp only [hlk]
        rw [hEq]
        exact Or.inr (Or.inl ⟨⟨_, rfl⟩, rfl, rfl, rfl, Or.inl rfl, hd'⟩)
    | some src =>
        cases herr : (copyLoop stopAt (chunkify (1024 * 1024) src) 0
            t.bytes_transferred [] []).err with
        | some e =>
            have hEq : transfer_file v dg stopAt fs t =
                { item := { t.start_transfer with bytes_transferred :=
                    (copyLoop stopAt (chunkify (1024 * 1024) src) 0
                      t.bytes_transferred [] []).finalBytes },
                  fs := fs,
                  prog := (copyLoop stopAt (chunkify (1024 * 1024) src) 0
                    t.bytes_transferred [] []).prog,
                  trace := [Status.transferring], err := some e } := by
              rw [transfer_file, if_neg hd]
              simp only [hlk, start_transfer_bytes, herr]
            rw [hEq]
            exact Or.inr (Or.inl ⟨⟨e, rfl⟩, rfl, rfl, rfl, Or.inr ⟨src, rfl, rfl⟩, hd'⟩)
        | none =>
            by_cases hsz : (copyLoop stopAt (chunkify (1024 * 1024) src) 0
                t.bytes_transferred [] []).written.length ≠ src.length
            · have hEq : transfer_file v dg stopAt fs t =
                  { item := { t.start_transfer with bytes_transferred :=
                      (copyLoop stopAt (chunkify (1024 * 1024) src) 0
                        t.bytes_transferred [] []).finalBytes },
                    fs := fs,
                    prog := (copyLoop stopAt (chunkify (1024 * 1024) src) 0
                      t.bytes_transferred [] []).prog,
                    trace := [Status.transferring],
                    err := some "File size mismatch after copy" } := by
                rw [transfer_file, if_neg hd]
                simp only [hlk, start_transfer_bytes, herr]
                rw [if_pos hsz]
              rw [hEq]
              exact Or.inr (Or.inl ⟨⟨_, rfl⟩, rfl, rfl, rfl, Or.inr ⟨src, rfl, rfl⟩, hd'⟩)
            · by_cases hck : v = true ∧ dg src ≠
                  dg (copyLoop stopAt (chunkify (1024 * 1024) src) 0
                    t.bytes_transferred [] []).written
              · have hEq : transfer_file v dg stopAt fs t =
                    { item := { t.start_transfer with bytes_transferred :=
                        (copyLoop stopAt (chunkify (1024 * 1024) src) 0
                          t.bytes_transferred [] []).finalBytes },
                      fs := fs,
                      prog := (copyLoop stopAt (chunkify (1024 * 1024) src) 0
                        t.bytes_transferred [] []).prog,
                      trace := [Status.transferring],
                      err := some "Checksum verification failed" } := by
                  rw [transfer_file, if_neg hd]
                  simp only [hlk, start_transfer_bytes, herr]
                  rw [if_neg hsz, if_pos hck]
                rw [hEq]
                exact Or.inr (Or.inl ⟨⟨_, rfl⟩, rfl, rfl, rfl, Or.inr ⟨src, rfl, rfl⟩, hd'⟩)
              · have hEq : transfer_file v dg stopAt fs t =
                    { item := { t.start_transfer with bytes_transferred :=
                        (copyLoop stopAt (chunkify (1024 * 1024) src) 0
                          t.bytes_transferred [] []).finalBytes }.complete (some src.length),
                      fs := writeFile fs t.destination_path
                        (copyLoop stopAt (chunkify (1024 * 1024) src) 0
                          t.bytes_transferred [] []).written,
                      prog := (copyLoop stopAt (chunkify (1024 * 1024) src) 0
                        t.bytes_transferred [] []).prog,
                      trace := [Status.transferring, Status.completed], err := none } := by
                  rw [transfer_file, if_neg hd]
                  simp only [hlk, start_transfer_bytes, herr]
                  rw [if_neg hsz, if_neg hck]
                rw [hEq]
                simp only [not_not] at hsz
                refine Or.inr (Or.inr ⟨src, rfl, rfl, hd', rfl, rfl, rfl, rfl, rfl, herr,
                  hsz, ?_⟩)
                intro hv
                by_contra hne
                exact hck ⟨hv, hne⟩

/-- C4: for every single-file transfer that terminates `Completed` with
checksum verification enabled, the digest of the destination equals the
digest of the source and the sizes match. -/
theorem c4_checksum_roundtrip (dg : List Nat → Nat) (stopAt : Option Nat)
    (fs : FileSystem) (t : TransferItem)
    (hc : (transfer_file true dg stopAt fs t).item.status = Status.completed) :
    ∃ src w, lookupFile fs t.source_path = some src ∧
      lookupFile (transfer_file true dg stopAt fs t).fs t.destination_path = some w ∧
      dg w = dg src ∧ w.length = src.length := by
  rcases transfer_file_spec true dg stopAt fs t with h | h | ⟨src, h⟩
  · rw [h.2.1] at hc
    exact absurd hc (by decide)
  · rw [h.2.1] at hc
    exact absurd hc (by decide)
  · obtain ⟨herr, hlk, hex, hst, hby, hfs, hprog, htr, hcerr, hwlen, hdg⟩ := h
    refine ⟨src, (copyLoop stopAt (chunkify (1024 * 1024) src) 0
      t.bytes_transferred [] []).written, hlk, ?_, (hdg rfl).symm, hwlen⟩
    rw [hfs]
    exact lookupFile_writeFile_self fs t.destination_path _

/-- Witness for C4: copying `"s" = [1,2,3]` to `"d"` with verification on
completes, and the conclusion holds at that input. -/
theorem c4_witness :
    ∃ src w, lookupFile [("s", [1, 2, 3])] "s" = some src ∧
      lookupFile (transfer_file true (fun l => l.sum) none [("s", [1, 2, 3])]
        (mkTransferItem "s" "d" false)).fs "d" = some w ∧
      (fun l : List Nat => l.sum) w = (fun l : List Nat => l.sum) src ∧
      w.length = src.length :=
  c4_checksum_roundtrip (fun l => l.sum) none [("s", [1, 2, 3])]
    (mkTransferItem "s" "d" false) (by decide)

/-- Exhaustive case analysis of `_transfer_directory`: the root-creation
failure (raising with the item untouched and nothing written), the
cancellation observed at the directory-level check, a walk aborted by
cancellation (root removed), or completion. -/
theorem transfer_directory_spec (stopAt : Option Nat) (rmf : Bool)
    (pre : Option DestDir) (files : List DirFile) (t : TransferItem) :
    (pre.isNone = true ∧ rmf = true ∧
      transfer_directory stopAt rmf pre files t =
        { item := t, destRoot := none, prog := [], trace := [],
          err := some "Failed to create directory" }) ∨
    (stopIsSet stopAt 0 = true ∧
      transfer_directory stopAt rmf pre files t =
        { item := t.start_transfer, destRoot := none, prog := [],
          trace := [Status.transferring], err := some "Transfer cancelled" }) ∨
    (∃ e, (walkFiles stopAt files 1 t.bytes_transferred (pre.getD []) []).2.2.2 = some e ∧
      transfer_directory stopAt rmf pre files t =
        { item := { t.start_transfer with bytes_transferred :=
            (walkFiles stopAt files 1 t.bytes_transferred (pre.getD []) []).2.1 },
          destRoot := none,
          prog := (walkFiles stopAt files 1 t.bytes_transferred (pre.getD []) []).2.2.1,
          trace := [Status.transferring], err := some e }) ∨
    ((walkFiles stopAt files 1 t.bytes_transferred (pre.getD []) []).2.2.2 = none ∧
      transfer_directory stopAt rmf pre files t =
        { item := ({ t.start_transfer with bytes_transferred :=
            (walkFiles stopAt files 1 t.bytes_transferred (pre.getD []) []).2.1 }).complete
              none,
          destRoot := some (walkFiles stopAt files 1 t.bytes_transferred (pre.getD []) []).1,
          prog := (walkFiles stopAt files 1 t.bytes_transferred (pre.getD []) []).2.2.1,
          trace := [Status.transferring, Status.completed], err := none }) := by
  by_cases hA : pre.isNone = true ∧ rmf = true
  · refine Or.inl ⟨hA.1, hA.2, ?_⟩
    rw [transfer_directory, if_pos hA]
  · by_cases hs : stopIsSet stopAt 0 = true
    · refine Or.inr (Or.inl ⟨hs, ?_⟩)
      rw [transfer_directory, if_neg hA]
      simp only [hs, if_true]
    · cases hw : (walkFiles stopAt files 1 t.bytes_transferred (pre.getD []) []).2.2.2 with
      | some e =>
          refine Or.inr (Or.inr (Or.inl ⟨e, rfl, ?_⟩))
          rw [transfer_directory, if_neg hA]
          simp only [hs, if_false, Bool.false_eq_true, start_transfer_bytes, hw]
      | none =>
          refine Or.inr (Or.inr (Or.inr ⟨rfl, ?_⟩))
          rw [transfer_directory, if_neg hA]
          simp only [hs, if_false, Bool.false_eq_true, start_transfer_bytes, hw]

/-- Counterexample to C5: a completed directory item whose final published
`bytesTransferred` (and final byte counter) is 5, while the total size of
the source is 12 — the unreadable file `"b"` was tolerated, so the item
completed without its bytes.  The claim's "final value equals the total
size of the source" fails for directory items. -/
theorem c5_dir_final_progress_ne_source_size :
    (transfer_directory none false none
        [{ name := "a", size := 5, unreadable := false },
         { name := "b", size := 7, unreadable := true }]
        (mkTransferItem "s" "d" true)).item.status = Status.completed ∧
    (transfer_directory none false none
        [{ name := "a", size := 5, unreadable := false },
         { name := "b", size := 7, unreadable := true }]
        (mkTransferItem "s" "d" true)).prog = [5] ∧
    (transfer_directory none false none
        [{ name := "a", size := 5, unreadable := false },
         { name := "b", size := 7, unreadable := true }]
        (mkTransferItem "s" "d" true)).item.bytes_transferred = 5 ∧
    totalSize [{ name := "a", size := 5, unreadable := false },
         { name := "b", size := 7, unreadable := true }] = 12 ∧
    ¬((transfer_directory none false none
        [{ name := "a", size := 5, unreadable := false },
         { name := "b", size := 7, unreadable := true }]
        (mkTransferItem "s" "d" true)).prog.getLast? =
      some (totalSize [{ name := "a", size := 5, unreadable := false },
         { name := "b", size := 7, unreadable := true }])) := by
  decide

/-- C5 as amended: the published `bytesTransferred` values are always
non-decreasing; for a completed single-file item the final byte counter
equals the source size and the last published value (when any was
published) equals it too; for a completed directory item the final counter
equals the sum of the sizes of the files actually copied, which is at most
(not necessarily equal to) the total source size. -/
theorem c5_amended_progress :
    (∀ (v : Bool) (dg : List Nat → Nat) (stopAt : Option Nat) (fs : FileSystem)
        (s d : String),
      List.Chain' (· ≤ ·) (transfer_file v dg stopAt fs (mkTransferItem s d false)).prog ∧
      ((transfer_file v dg stopAt fs (mkTransferItem s d false)).item.status =
          Status.completed →
        ∃ src, lookupFile fs s = some src ∧
          (transfer_file v dg stopAt fs (mkTransferItem s d false)).item.bytes_transferred
            = src.length ∧
          ((transfer_file v dg stopAt fs (mkTransferItem s d false)).prog = [] ∨
            (transfer_file v dg stopAt fs (mkTransferItem s d false)).prog.getLast? =
              some src.length))) ∧
    (∀ (stopAt : Option Nat) (rmf : Bool) (pre : Option DestDir) (files : List DirFile)
        (s d : String),
      List.Chain' (· ≤ ·)
        (transfer_directory stopAt rmf pre files (mkTransferItem s d true)).prog ∧
      ((transfer_directory stopAt rmf pre files (mkTransferItem s d true)).item.status =
          Status.completed →
        ∃ added,
          (transfer_directory stopAt rmf pre files (mkTransferItem s d true)).destRoot =
            some (pre.getD [] ++ added) ∧
          (transfer_directory stopAt rmf pre files
              (mkTransferItem s d true)).item.bytes_transferred
            = (added.map (fun p => p.2)).sum ∧
          (transfer_directory stopAt rmf pre files
              (mkTransferItem s d true)).item.bytes_transferred ≤ totalSize files ∧
          ((transfer_directory stopAt rmf pre files (mkTransferItem s d true)).prog = [] ∨
            (transfer_directory stopAt rmf pre files
                (mkTransferItem s d true)).prog.getLast? =
              some (transfer_directory stopAt rmf pre files
                (mkTransferItem s d true)).item.bytes_transferred))) := by
  constructor
  · intro v dg stopAt fs s d
    rcases transfer_file_spec v dg stopAt fs (mkTransferItem s d false) with h | h | ⟨src, h⟩
    · refine ⟨?_, ?_⟩
      · rw [h.2.2.2.1]
        exact List.chain'_nil
      · intro hc
        rw [h.2.1] at hc
        exact absurd hc (by decide)
    · refine ⟨?_, ?_⟩
      · rcases h.2.2.2.2.1 with hp | ⟨src, _, hp⟩
        · rw [hp]
          exact List.chain'_nil
        · rw [hp]
          exact (copyLoop_inv stopAt (chunkify (1024 * 1024) src) 0
            (mkTransferItem s d false).bytes_transferred [] []).2.2 List.chain'_nil
            (by intro x hx; exact absurd hx (by simp))
      · intro hc
        rw [h.2.1] at hc
        exact absurd hc (by decide)
    · obtain ⟨herr, hlk, hex, hst, hby, hfs, hprog, htr, hcerr, hwlen, hdg⟩ := h
      have hinv := copyLoop_inv stopAt (chunkify (1024 * 1024) src) 0
        (mkTransferItem s d false).bytes_transferred [] []
      refine ⟨?_, ?_⟩
      · rw [hprog]
        exact hinv.2.2 List.chain'_nil (by intro x hx; exact absurd hx (by simp))
      · intro _
        refine ⟨src, hlk, hby, ?_⟩
        have hfin : (copyLoop stopAt (chunkify (1024 * 1024) src) 0
            (mkTransferItem s d false).bytes_transferred [] []).finalBytes = src.length := by
          have h2 := hinv.2.1
          have hbt : (mkTransferItem s d false).bytes_transferred = 0 := rfl
          simp only [List.length_nil] at h2
          omega
        rcases hinv.1 with ⟨hp, _⟩ | hlast
        · left
          rw [hprog, hp]
        · right
          rw [hprog, ← hfin]
          exact hlast
  · intro stopAt rmf pre files s d
    rcases transfer_directory_spec stopAt rmf pre files (mkTransferItem s d true) with
      h | h | ⟨e, hw, h⟩ | ⟨hw, h⟩
    · refine ⟨?_, ?_⟩
      · rw [h.2.2]
        exact List.chain'_nil
      · intro hc
        rw [h.2.2] at hc
        simp [mkTransferItem] at hc
    · refine ⟨?_, ?_⟩
      · rw [h.2]
        exact List.chain'_nil
      · intro hc
        rw [h.2] at hc
        simp at hc
    · have hinv := walkFiles_inv stopAt files 1
        (mkTransferItem s d true).bytes_transferred (pre.getD []) []
      refine ⟨?_, ?_⟩
      · rw [h]
        exact hinv.2.2.1 List.chain'_nil (by intro x hx; exact absurd hx (by simp))
      · intro hc
        rw [h] at hc
        simp at hc
    · have hinv := walkFiles_inv stopAt files 1
        (mkTransferItem s d true).bytes_transferred (pre.getD []) []
      obtain ⟨added, hdest, hbt, hsum⟩ := hinv.1
      have hbt0 : (mkTransferItem s d true).bytes_transferred = 0 := rfl
      refine ⟨?_, ?_⟩
      · rw [h]
        exact hinv.2.2.1 List.chain'_nil (by intro x hx; exact absurd hx (by simp))
      · intro _
        refine ⟨added, ?_, ?_, ?_, ?_⟩
        · rw [h, hdest]
        · rw [h]
          simp only [complete_none_bytes]
          rw [hbt0] at hbt
          simpa using hbt
        · rw [h]
          simp only [complete_none_bytes]
          rw [hbt0] at hbt
          have : (walkFiles stopAt files 1 0 (pre.getD []) []).2.1 =
              (added.map (fun p => p.2)).sum := by simpa using hbt
          rw [hbt0]
          omega
        · rcases hinv.2.1 with ⟨hp, hb⟩ | hlast
          · left
            rw [h, hp]
          · right
            rw [h]
            simp only [complete_none_bytes]
            exact hlast

/-- Witness for C5 (amended) at a concrete completed single-file transfer. -/
theorem c5_amended_witness :
    List.Chain' (· ≤ ·) (transfer_file false (fun l => l.sum) none [("s", [1, 2, 3])]
      (mkTransferItem "s" "d" false)).prog ∧
    (∃ src, lookupFile [("s", [1, 2, 3])] "s" = some src ∧
      (transfer_file false (fun l => l.sum) none [("s", [1, 2, 3])]
        (mkTransferItem "s" "d" false)).item.bytes_transferred = src.length ∧
      ((transfer_file false (fun l => l.sum) none [("s", [1, 2, 3])]
          (mkTransferItem "s" "d" false)).prog = [] ∨
        (transfer_file false (fun l => l.sum) none [("s", [1, 2, 3])]
          (mkTransferItem "s" "d" false)).prog.getLast? = some src.length)) :=
  ⟨(c5_amended_progress.1 false (fun l => l.sum) none [("s", [1, 2, 3])] "s" "d").1,
   (c5_amended_progress.1 false (fun l => l.sum) none [("s", [1, 2, 3])] "s" "d").2
     (by decide)⟩

/-- C8: with no cancellation and a creatable destination root, a directory
transfer never raises: per-file failures are tolerated, the item reaches
`Completed`, and every readable source file is present at the destination. -/
theorem c8_fault_isolation (pre : Option DestDir) (files : List DirFile) (s d : String) :
    (transfer_directory none false pre files (mkTransferItem s d true)).err = none ∧
    (transfer_directory none false pre files (mkTransferItem s d true)).item.status =
      Status.completed ∧
    ∃ dest, (transfer_directory none false pre files (mkTransferItem s d true)).destRoot =
        some dest ∧
      ∀ f ∈ files, f.unreadable = false → fileExistsIn dest f.name = true := by
  rcases transfer_directory_spec none false pre files (mkTransferItem s d true) with
    h | h | ⟨e, hw, h⟩ | ⟨hw, h⟩
  · exact absurd h.2.1 (by decide)
  · exact absurd h.1 (by decide)
  · rw [walkFiles_no_stop_no_err] at hw
    exact absurd hw (by simp)
  · rw [h]
    refine ⟨rfl, rfl, (walkFiles none files 1
      (mkTransferItem s d true).bytes_transferred (pre.getD []) []).1, rfl, ?_⟩
    exact (walkFiles_inv none files 1 (mkTransferItem s d true).bytes_transferred
      (pre.getD []) []).2.2.2.2 hw

/-- Witness for C8: the spec's fault-isolation scenario — a 10-file
directory with one unreadable file completes, and the nine readable files
are all present at the destination. -/
theorem c8_witness :
    (transfer_directory none false none
        [{ name := "f1", size := 1, unreadable := false },
         { name := "f2", size := 2, unreadable := false },
         { name := "f3", size := 3, unreadable := false },
         { name := "f4", size := 4, unreadable := true },
         { name := "f5", size := 5, unreadable := false },
         { name := "f6", size := 6, unreadable := false },
         { name := "f7", size := 7, unreadable := false },
         { name := "f8", size := 8, unreadable := false },
         { name := "f9", size := 9, unreadable := false },
         { name := "f10", size := 10, unreadable := false }]
        (mkTransferItem "s" "d" true)).item.status = Status.completed ∧
    ∃ dest, (transfer_directory none false none
        [{ name := "f1", size := 1, unreadable := false },
         { name := "f2", size := 2, unreadable := false },
         { name := "f3", size := 3, unreadable := false },
         { name := "f4", size := 4, unreadable := true },
         { name := "f5", size := 5, unreadable := false },
         { name := "f6", size := 6, unreadable := false },
         { name := "f7", size := 7, unreadable := false },
         { name := "f8", size := 8, unreadable := false },
         { name := "f9", size := 9, unreadable := false },
         { name := "f10", size := 10, unreadable := false }]
        (mkTransferItem "s" "d" true)).destRoot = some dest ∧
      ∀ f ∈ ([{ name := "f1", size := 1, unreadable := false },
         { name := "f2", size := 2, unreadable := false },
         { name := "f3", size := 3, unreadable := false },
         { name := "f4", size := 4, unreadable := true },
         { name := "f5", size := 5, unreadable := false },
         { name := "f6", size := 6, unreadable := false },
         { name := "f7", size := 7, unreadable := false },
         { name := "f8", size := 8, unreadable := false },
         { name := "f9", size := 9, unreadable := false },
         { name := "f10", size := 10, unreadable := false }] : List DirFile),
        f.unreadable = false → fileExistsIn dest f.name = true :=
  ⟨(c8_fault_isolation none _ "s" "d").2.1, (c8_fault_isolation none _ "s" "d").2.2⟩

/-- Counterexample to C9: the destination root pre-exists and holds
`("old", 3)`, which the transfer did not create; cancelling the transfer at
the first per-file check removes the whole destination root, so the
pre-existing content is deleted too — not "exactly the destination tree
that the transfer created". -/
theorem c9_preexisting_content_deleted :
    (transfer_directory (some 1) false (some [("old", 3)])
        [{ name := "new", size := 5, unreadable := false }]
        (mkTransferItem "s" "d" true)).err = some "Transfer cancelled" ∧
    fileExistsIn [("old", 3)] "old" = true ∧
    fileExistsIn [("old", 3)] "new" = false ∧
    (transfer_directory (some 1) false (some [("old", 3)])
        [{ name := "new", size := 5, unreadable := false }]
        (mkTransferItem "s" "d" true)).destRoot = none := by
  decide

/-- C9 as amended: on any raised top-level failure (cancellation included)
the entire destination root tree is removed — including content that
existed before the transfer — and the failure is re-raised; a failure to
create the destination root raises immediately, with the item untouched,
nothing written, no progress published and no cleanup performed. -/
theorem c9_amended_cleanup :
    (∀ (stopAt : Option Nat) (rmf : Bool) (pre : Option DestDir) (files : List DirFile)
        (t : TransferItem),
      ((transfer_directory stopAt rmf pre files t).err).isSome = true →
      (transfer_directory stopAt rmf pre files t).destRoot = none) ∧
    (∀ (stopAt : Option Nat) (files : List DirFile) (t : TransferItem),
      transfer_directory stopAt true none files t =
        { item := t, destRoot := none, prog := [], trace := [],
          err := some "Failed to create directory" }) := by
  constructor
  · intro stopAt rmf pre files t hsome
    rcases transfer_directory_spec stopAt rmf pre files t with
      h | h | ⟨e, hw, h⟩ | ⟨hw, h⟩
    · rw [h.2.2]
    · rw [h.2]
    · rw [h]
    · rw [h] at hsome
      simp at hsome
  · intro stopAt files t
    have hc : (none : Option DestDir).isNone = true ∧ (true : Bool) = true := ⟨rfl, rfl⟩
    rw [transfer_directory, if_pos hc]

/-- Witness for C9 (amended): a concrete cancelled run whose destination
root is gone afterwards, and a concrete root-creation failure that leaves
the item untouched. -/
theorem c9_amended_witness :
    ((transfer_directory (some 0) false none
        [{ name := "a", size := 2, unreadable := false }]
        (mkTransferItem "s" "d" true)).err).isSome = true ∧
    (transfer_directory (some 0) false none
        [{ name := "a", size := 2, unreadable := false }]
        (mkTransferItem "s" "d" true)).destRoot = none ∧
    transfer_directory none true none [] (mkTransferItem "s" "d" true) =
      { item := mkTransferItem "s" "d" true, destRoot := none, prog := [], trace := [],
        err := some "Failed to create directory" } :=
  ⟨by decide,
   c9_amended_cleanup.1 (some 0) false none
     [{ name := "a", size := 2, unreadable := false }]
     (mkTransferItem "s" "d" true) (by decide),
   c9_amended_cleanup.2 none [] (mkTransferItem "s" "d" true)⟩

/-- `_process_queue` iteration when the copier raises: the item is failed
with the message, appended to the failed list, an `error` event (not a
`complete` one) is published, and the id leaves the in-flight map. -/
theorem process_one_err (env : CopyEnv) (st : WorkerState) (tid : Nat) (t : TransferItem)
    (rest : List (Nat × TransferItem)) (e : String)
    (hq : st.queue = (tid, t) :: rest)
    (herr : (runCopier env t).2.2.2 = some e) :
    process_one env st =
      ({ queue := rest, active_transfers := eraseId st.active_transfers tid,
         completed_transfers := st.completed_transfers,
         failed_transfers := st.failed_transfers ++ [(runCopier env t).1.fail e] },
       (Event.start tid :: (runCopier env t).2.1.map (fun b => Event.progress tid b)) ++
         [Event.error tid e],
       (runCopier env t).2.2.1 ++ [Status.failed]) := by
  simp only [process_one, hq, herr]

/-- `_process_queue` iteration when the copier returns: a `completed` or
`failed` item moves to its terminal list (a `skipped` one to neither), a
`complete` event is published, and the id leaves the in-flight map. -/
theorem process_one_ok (env : CopyEnv) (st : WorkerState) (tid : Nat) (t : TransferItem)
    (rest : List (Nat × TransferItem))
    (hq : st.queue = (tid, t) :: rest)
    (herr : (runCopier env t).2.2.2 = none) :
    process_one env st =
      ({ queue := rest, active_transfers := eraseId st.active_transfers tid,
         completed_transfers := if (runCopier env t).1.status = Status.completed
           then st.completed_transfers ++ [(runCopier env t).1] else st.completed_transfers,
         failed_transfers := if (runCopier env t).1.status = Status.failed
           then st.failed_transfers ++ [(runCopier env t).1] else st.failed_transfers },
       (Event.start tid :: (runCopier env t).2.1.map (fun b => Event.progress tid b)) ++
         [Event.complete tid],
       (runCopier env t).2.2.1) := by
  simp only [process_one, hq, herr]

/-- The copier's status trace is one of four shapes, tied to whether it
raised: `[skipped]` or `[transferring, completed]` on a normal return, `[]`
(root-creation failure) or `[transferring]` when it raised. -/
theorem runCopier_trace (env : CopyEnv) (t : TransferItem) :
    ((runCopier env t).2.2.2 = none ∧
      ((runCopier env t).2.2.1 = [Status.skipped] ∨
        (runCopier env t).2.2.1 = [Status.transferring, Status.completed])) ∨
    ((∃ e, (runCopier env t).2.2.2 = some e) ∧
      ((runCopier env t).2.2.1 = [] ∨
        (runCopier env t).2.2.1 = [Status.transferring])) := by
  by_cases hdir : t.is_dir = true
  · rw [runCopier, if_pos hdir]
    rcases transfer_directory_spec env.stopAt env.rootMkdirFails env.preexisting env.files t
      with h | h | ⟨e, hw, h⟩ | ⟨hw, h⟩
    · rw [h.2.2]
      exact Or.inr ⟨⟨_, rfl⟩, Or.inl rfl⟩
    · rw [h.2]
      exact Or.inr ⟨⟨_, rfl⟩, Or.inr rfl⟩
    · rw [h]
      exact Or.inr ⟨⟨e, rfl⟩, Or.inr rfl⟩
    · rw [h]
      exact Or.inl ⟨rfl, Or.inr rfl⟩
  · rw [runCopier, if_neg hdir]
    rcases transfer_file_spec env.verify_checksum env.digest env.stopAt env.fs t
      with h | h | ⟨src, h⟩
    · exact Or.inl ⟨h.1, Or.inl h.2.2.2.2.2.1⟩
    · exact Or.inr ⟨h.1, Or.inr h.2.2.2.1⟩
    · exact Or.inl ⟨h.1, Or.inr h.2.2.2.2.2.2.2.1⟩

/-- C7: when cancellation is observed mid-transfer the copier raises
`"Transfer cancelled"` — a reason distinct from every modelled I/O error —
the worker marks the item `Failed` with that reason, and the partial output
is removed: the destination file does not exist after a cancelled file
copy, and the destination root directory does not exist after a cancelled
directory copy. -/
theorem c7_cancellation_cleanup :
    (∀ (v : Bool) (dg : List Nat → Nat) (stopAt : Option Nat) (fs : FileSystem)
        (t : TransferItem),
      (transfer_file v dg stopAt fs t).err = some "Transfer cancelled" →
      existsFile (transfer_file v dg stopAt fs t).fs t.destination_path = false) ∧
    (∀ (stopAt : Option Nat) (rmf : Bool) (pre : Option DestDir) (files : List DirFile)
        (t : TransferItem),
      (transfer_directory stopAt rmf pre files t).err = some "Transfer cancelled" →
      (transfer_directory stopAt rmf pre files t).destRoot = none) ∧
    (∀ (env : CopyEnv) (st : WorkerState) (tid : Nat) (t : TransferItem)
        (rest : List (Nat × TransferItem)) (e : String),
      st.queue = (tid, t) :: rest →
      (runCopier env t).2.2.2 = some e →
      ∃ u, ((process_one env st).1.failed_transfers).getLast? = some u ∧
        u.status = Status.failed ∧ u.error = some e) ∧
    ("Transfer cancelled" ∈ ioErrorMsgs → False) := by
  refine ⟨?_, ?_, ?_, by decide⟩
  · intro v dg stopAt fs t hcan
    rcases transfer_file_spec v dg stopAt fs t with h | h | ⟨src, h⟩
    · rw [h.1] at hcan
      exact absurd hcan (by simp)
    · rw [h.2.2.1]
      exact h.2.2.2.2.2
    · rw [h.1] at hcan
      exact absurd hcan (by simp)
  · intro stopAt rmf pre files t hcan
    rcases transfer_directory_spec stopAt rmf pre files t with
      h | h | ⟨e, hw, h⟩ | ⟨hw, h⟩
    · rw [h.2.2]
    · rw [h.2]
    · rw [h]
    · rw [h] at hcan
      exact absurd hcan (by simp)
  · intro env st tid t rest e hq herr
    rw [process_one_err env st tid t rest e hq herr]
    exact ⟨(runCopier env t).1.fail e, List.getLast?_concat _, fail_status _ _,
      fail_error _ _⟩

/-- Witness for C7: a stop event set before the first check cancels a file
copy (destination absent afterwards), a directory copy (root absent
afterwards), and the worker records the failure with the cancellation
reason. -/
theorem c7_witness :
    (transfer_file false (fun l => l.sum) (some 0) [("s", [1])]
        (mkTransferItem "s" "d" false)).err = some "Transfer cancelled" ∧
    existsFile (transfer_file false (fun l => l.sum) (some 0) [("s", [1])]
        (mkTransferItem "s" "d" false)).fs "d" = false ∧
    (transfer_directory (some 0) false none
        [{ name := "a", size := 2, unreadable := false }]
        (mkTransferItem "s" "d" true)).err = some "Transfer cancelled" ∧
    (transfer_directory (some 0) false none
        [{ name := "a", size := 2, unreadable := false }]
        (mkTransferItem "s" "d" true)).destRoot = none ∧
    (∃ u, ((process_one
        { verify_checksum := false, digest := fun l => l.sum, stopAt := some 0,
          fs := [("s", [1])], rootMkdirFails := false, preexisting := none, files := [] }
        (add_transfer initialState 1 "s" "d" false)).1.failed_transfers).getLast? = some u ∧
      u.status = Status.failed ∧ u.error = some "Transfer cancelled") :=
  ⟨by decide,
   c7_cancellation_cleanup.1 false (fun l => l.sum) (some 0) [("s", [1])]
     (mkTransferItem "s" "d" false) (by decide),
   by decide,
   c7_cancellation_cleanup.2.1 (some 0) false none
     [{ name := "a", size := 2, unreadable := false }]
     (mkTransferItem "s" "d" true) (by decide),
   c7_cancellation_cleanup.2.2.1
     { verify_checksum := false, digest := fun l => l.sum, stopAt := some 0,
       fs := [("s", [1])], rootMkdirFails := false, preexisting := none, files := [] }
     (add_transfer initialState 1 "s" "d" false) 1 (mkTransferItem "s" "d" false) []
     "Transfer cancelled" (by decide) (by decide)⟩

/-- Counterexample to C1: the copier raises (missing source file), and the
worker publishes an `error` event — no `complete` event is published for
the item. -/
theorem c1_complete_not_always_published :
    ((runCopier
        { verify_checksum := false, digest := fun l => l.sum, stopAt := none, fs := [],
          rootMkdirFails := false, preexisting := none, files := [] }
        (mkTransferItem "s" "d" false)).2.2.2).isSome = true ∧
    ¬ Event.complete 1 ∈ (process_one
        { verify_checksum := false, digest := fun l => l.sum, stopAt := none, fs := [],
          rootMkdirFails := false, preexisting := none, files := [] }
        (add_transfer initialState 1 "s" "d" false)).2.1 ∧
    Event.error 1 "No such file or directory" ∈ (process_one
        { verify_checksum := false, digest := fun l => l.sum, stopAt := none, fs := [],
          rootMkdirFails := false, preexisting := none, files := [] }
        (add_transfer initialState 1 "s" "d" false)).2.1 := by
  decide

/-- C1 as amended: a `complete` event is published exactly when the copier
returns without raising; when it raises, an `error` event is published
instead and no `complete` event is published for the item. -/
theorem c1_amended_complete_iff_no_raise (env : CopyEnv) (st : WorkerState) (tid : Nat)
    (t : TransferItem) (rest : List (Nat × TransferItem))
    (hq : st.queue = (tid, t) :: rest) :
    ((runCopier env t).2.2.2 = none →
      Event.complete tid ∈ (process_one env st).2.1 ∧
        ∀ m, ¬ Event.error tid m ∈ (process_one env st).2.1) ∧
    (∀ e, (runCopier env t).2.2.2 = some e →
      Event.error tid e ∈ (process_one env st).2.1 ∧
        ¬ Event.complete tid ∈ (process_one env st).2.1) := by
  cases hcerr : (runCopier env t).2.2.2 with
  | none =>
      rw [process_one_ok env st tid t rest hq hcerr]
      constructor
      · intro _
        constructor
        · simp
        · intro m hm
          simp at hm
      · intro e he
        exact absurd he (by simp)
  | some e =>
      rw [process_one_err env st tid t rest e hq hcerr]
      constructor
      · intro h'
        exact absurd h' (by simp)
      · intro e' he'
        injection he' with h
        subst h
        constructor
        · simp
        · intro hm
          simp at hm

/-- Witness for C1 (amended): a successful copy publishes `complete`. -/
theorem c1_amended_witness :
    (runCopier
        { verify_checksum := false, digest := fun l => l.sum, stopAt := none,
          fs := [("s", [1])], rootMkdirFails := false, preexisting := none, files := [] }
        (mkTransferItem "s" "d" false)).2.2.2 = none ∧
    Event.complete 1 ∈ (process_one
        { verify_checksum := false, digest := fun l => l.sum, stopAt := none,
          fs := [("s", [1])], rootMkdirFails := false, preexisting := none, files := [] }
        (add_transfer initialState 1 "s" "d" false)).2.1 :=
  ⟨by decide,
   ((c1_amended_complete_iff_no_raise
      { verify_checksum := false, digest := fun l => l.sum, stopAt := none,
        fs := [("s", [1])], rootMkdirFails := false, preexisting := none, files := [] }
      (add_transfer initialState 1 "s" "d" false) 1 (mkTransferItem "s" "d" false) []
      (by decide)).1 (by decide)).1⟩

/-- Counterexample to C2: an item skipped because its destination already
exists reaches the terminal state `Skipped`, is removed from the in-flight
map, but is moved into NEITHER the completed list NOR the failed list — it
vanishes from all four collections. -/
theorem c2_skipped_item_dropped :
    (runCopier
        { verify_checksum := false, digest := fun l => l.sum, stopAt := none,
          fs := [("d", [7])], rootMkdirFails := false, preexisting := none, files := [] }
        (mkTransferItem "s" "d" false)).1.status = Status.skipped ∧
    Status.skipped.isTerminal = true ∧
    (process_one
        { verify_checksum := false, digest := fun l => l.sum, stopAt := none,
          fs := [("d", [7])], rootMkdirFails := false, preexisting := none, files := [] }
        (add_transfer initialState 1 "s" "d" false)).1.completed_transfers = [] ∧
    (process_one
        { verify_checksum := false, digest := fun l => l.sum, stopAt := none,
          fs := [("d", [7])], rootMkdirFails := false, preexisting := none, files := [] }
        (add_transfer initialState 1 "s" "d" false)).1.failed_transfers = [] ∧
    (process_one
        { verify_checksum := false, digest := fun l => l.sum, stopAt := none,
          fs := [("d", [7])], rootMkdirFails := false, preexisting := none, files := [] }
        (add_transfer initialState 1 "s" "d" false)).1.active_transfers = [] := by
  decide

/-- C2 as amended: processing one item assigns a terminal status exactly
once and last (no transition leaves it); a `Completed` item moves to the
completed list, a `Failed` item (the copier raised) to the failed list, but
a `Skipped` item is moved to neither list; in every case the id is removed
from the in-flight map. -/
theorem c2_amended_terminal_once (env : CopyEnv) (st : WorkerState) (tid : Nat)
    (t : TransferItem) (rest : List (Nat × TransferItem))
    (hq : st.queue = (tid, t) :: rest) :
    ((process_one env st).2.2).countP (fun s => s.isTerminal) = 1 ∧
    (∃ s, ((process_one env st).2.2).getLast? = some s ∧ s.isTerminal = true) ∧
    ((runCopier env t).2.2.2 = none →
      ((runCopier env t).1.status = Status.completed →
        (process_one env st).1.completed_transfers =
          st.completed_transfers ++ [(runCopier env t).1] ∧
        (process_one env st).1.failed_transfers = st.failed_transfers) ∧
      ((runCopier env t).1.status = Status.skipped →
        (process_one env st).1.completed_transfers = st.completed_transfers ∧
        (process_one env st).1.failed_transfers = st.failed_transfers)) ∧
    (∀ e, (runCopier env t).2.2.2 = some e →
      (process_one env st).1.failed_transfers =
        st.failed_transfers ++ [(runCopier env t).1.fail e] ∧
      (process_one env st).1.completed_transfers = st.completed_transfers) ∧
    (∀ p ∈ (process_one env st).1.active_transfers, p.1 ≠ tid) := by
  cases hcerr : (runCopier env t).2.2.2 with
  | none =>
      rw [process_one_ok env st tid t rest hq hcerr]
      have htr : (runCopier env t).2.2.1 = [Status.skipped] ∨
          (runCopier env t).2.2.1 = [Status.transferring, Status.completed] := by
        rcases runCopier_trace env t with ⟨_, h⟩ | ⟨⟨e, hs⟩, _⟩
        · exact h
        · rw [hcerr] at hs
          exact absurd hs (by simp)
      refine ⟨?_, ?_, ?_, ?_, ?_⟩
      · rcases htr with h | h
        · rw [h]
          rfl
        · rw [h]
          rfl
      · rcases htr with h | h
        · rw [h]
          exact ⟨Status.skipped, rfl, rfl⟩
        · rw [h]
          exact ⟨Status.completed, rfl, rfl⟩
      · intro _
        constructor
        · intro hst
          rw [if_pos hst, if_neg (by rw [hst]; decide)]
          exact ⟨rfl, rfl⟩
        · intro hst
          rw [if_neg (by rw [hst]; decide), if_neg (by rw [hst]; decide)]
          exact ⟨rfl, rfl⟩
      · intro e he
        exact absurd he (by simp)
      · intro p hp
        simp only [eraseId, List.mem_filter, decide_eq_true_eq] at hp
        exact hp.2
  | some e =>
      rw [process_one_err env st tid t rest e hq hcerr]
      have htr : (runCopier env t).2.2.1 = [] ∨
          (runCopier env t).2.2.1 = [Status.transferring] := by
        rcases runCopier_trace env t with ⟨hn, _⟩ | ⟨_, h⟩
        · rw [hcerr] at hn
          exact absurd hn (by simp)
        · exact h
      refine ⟨?_, ?_, ?_, ?_, ?_⟩
      · rcases htr with h | h
        · rw [h]
          rfl
        · rw [h]
          rfl
      · rcases htr with h | h
        · rw [h]
          exact ⟨Status.failed, rfl, rfl⟩
        · rw [h]
          exact ⟨Status.failed, rfl, rfl⟩
      · intro h'
        exact absurd h' (by simp)
      · intro e' he'
        injection he' with h
        subst h
        exact ⟨rfl, rfl⟩
      · intro p hp
        simp only [eraseId, List.mem_filter, decide_eq_true_eq] at hp
        exact hp.2

/-- Witness for C2 (amended) at a concrete skipped run. -/
theorem c2_amended_witness :
    ((process_one
        { verify_checksum := false, digest := fun l => l.sum, stopAt := none,
          fs := [("d", [7])], rootMkdirFails := false, preexisting := none, files := [] }
        (add_transfer initialState 1 "s" "d" false)).2.2).countP
      (fun s => s.isTerminal) = 1 ∧
    (∃ s, ((process_one
        { verify_checksum := false, digest := fun l => l.sum, stopAt := none,
          fs := [("d", [7])], rootMkdirFails := false, preexisting := none, files := [] }
        (add_transfer initialState 1 "s" "d" false)).2.2).getLast? = some s ∧
      s.isTerminal = true) :=
  ⟨(c2_amended_terminal_once
      { verify_checksum := false, digest := fun l => l.sum, stopAt := none,
        fs := [("d", [7])], rootMkdirFails := false, preexisting := none, files := [] }
      (add_transfer initialState 1 "s" "d" false) 1 (mkTransferItem "s" "d" false) []
      (by decide)).1,
   (c2_amended_terminal_once
      { verify_checksum := false, digest := fun l => l.sum, stopAt := none,
        fs := [("d", [7])], rootMkdirFails := false, preexisting := none, files := [] }
      (add_transfer initialState 1 "s" "d" false) 1 (mkTransferItem "s" "d" false) []
      (by decide)).2.1⟩

/-- Counterexample to C3: after one `add_transfer` on a fresh manager, the
single enqueued item sits in BOTH the pending FIFO and the in-flight map
(same id `1` in both), so `overallProgress().total` reports `2` for one
enqueued item — the four collections are not disjoint and the item is counted
twice. -/
theorem c3_enqueued_item_double_counted :
    (get_overall_progress (add_transfer initialState 1 "s" "d" false)).total = 2 ∧
    (add_transfer initialState 1 "s" "d" false).queue.map Prod.fst = [1] ∧
    (add_transfer initialState 1 "s" "d" false).active_transfers.map Prod.fst = [1] ∧
    (get_overall_progress (add_transfer initialState 1 "s" "d" false)).completed = 0 ∧
    (get_overall_progress (add_transfer initialState 1 "s" "d" false)).failed = 0 := by
  decide

/-- C3 as amended: `overallProgress().total` does equal
`queued + active + completed + failed`, but the pending FIFO and the
in-flight map are not disjoint: `add_transfer` places the fresh item in
both at once, so each enqueue grows `total` by 2 and a not-yet-dequeued
item is counted twice. -/
theorem c3_amended_total_formula :
    (∀ st : WorkerState,
      (get_overall_progress st).total = (get_overall_progress st).queued +
        (get_overall_progress st).active + (get_overall_progress st).completed +
        (get_overall_progress st).failed) ∧
    (∀ (st : WorkerState) (tid : Nat) (s d : String) (b : Bool),
      (add_transfer st tid s d b).queue =
        st.queue ++ [(tid, mkTransferItem s d b)] ∧
      (add_transfer st tid s d b).active_transfers =
        st.active_transfers ++ [(tid, mkTransferItem s d b)] ∧
      (get_overall_progress (add_transfer st tid s d b)).total =
        (get_overall_progress st).total + 2) := by
  constructor
  · intro st
    rfl
  · intro st tid s d b
    refine ⟨rfl, rfl, ?_⟩
    simp only [get_overall_progress, add_transfer, List.length_append, List.length_cons,
      List.length_nil]
    omega

/-- `_transfer_file` never writes `total_bytes`. -/
theorem transfer_file_total_bytes (v : Bool) (dg : List Nat → Nat) (stopAt : Option Nat)
    (fs : FileSystem) (t : TransferItem) :
    (transfer_file v dg stopAt fs t).item.total_bytes = t.total_bytes := by
  rw [transfer_file]
  split
  · rfl
  · split
    · rfl
    · dsimp only
      split
      · rfl
      · split
        · rfl
        · split
          · rfl
          · rfl

/-- `_transfer_directory` never writes `total_bytes`. -/
theorem transfer_directory_total_bytes (stopAt : Option Nat) (rmf : Bool)
    (pre : Option DestDir) (files : List DirFile) (t : TransferItem) :
    (transfer_directory stopAt rmf pre files t).item.total_bytes = t.total_bytes := by
  rw [transfer_directory]
  split
  · rfl
  · split
    · rfl
    · dsimp only
      split
      · rfl
      · rfl

/-- C10: `total_bytes` starts at 0 and no operation ever assigns it — the
constructor sets it to 0 and every state transition and both copiers leave
it unchanged — so the `progress` field every `get_transfer_status` snapshot
computes is 0 whenever `total_bytes = 0`, i.e. always, regardless of
`bytes_transferred`. -/
theorem c10_total_bytes_never_assigned :
    (∀ (s d : String) (b : Bool), (mkTransferItem s d b).total_bytes = 0) ∧
    (∀ t : TransferItem, t.start_transfer.total_bytes = t.total_bytes) ∧
    (∀ (t : TransferItem) (ob : Option Nat), (t.complete ob).total_bytes = t.total_bytes) ∧
    (∀ (t : TransferItem) (e : String), (t.fail e).total_bytes = t.total_bytes) ∧
    (∀ (t : TransferItem) (r : Option String), (t.skip r).total_bytes = t.total_bytes) ∧
    (∀ (v : Bool) (dg : List Nat → Nat) (stopAt : Option Nat) (fs : FileSystem)
        (t : TransferItem),
      (transfer_file v dg stopAt fs t).item.total_bytes = t.total_bytes) ∧
    (∀ (stopAt : Option Nat) (rmf : Bool) (pre : Option DestDir) (files : List DirFile)
        (t : TransferItem),
      (transfer_directory stopAt rmf pre files t).item.total_bytes = t.total_bytes) ∧
    (∀ t : TransferItem, t.total_bytes = 0 → snapshot_progress t = 0) := by
  refine ⟨fun s d b => rfl, fun t => rfl, fun t ob => rfl, fun t e => rfl, fun t r => rfl,
    transfer_file_total_bytes, transfer_directory_total_bytes, ?_⟩
  intro t h
  simp [snapshot_progress, h]

/-- Witness for C10: a fresh item has `total_bytes = 0` and its snapshot
progress fraction is 0 even with bytes transferred. -/
theorem c10_witness :
    (mkTransferItem "s" "d" false).total_bytes = 0 ∧
    snapshot_progress (mkTransferItem "s" "d" false) = 0 ∧
    snapshot_progress
      { mkTransferItem "s" "d" false with bytes_transferred := 12345 } = 0 :=
  ⟨c10_total_bytes_never_assigned.1 "s" "d" false,
   c10_total_bytes_never_assigned.2.2.2.2.2.2.2 (mkTransferItem "s" "d" false)
     (c10_total_bytes_never_assigned.1 "s" "d" false),
   c10_total_bytes_never_assigned.2.2.2.2.2.2.2
     { mkTransferItem "s" "d" false with bytes_transferred := 12345 } rfl⟩
